import Mathlib

/-!
# Verification of the Production-Efficiency-and-Cost-Optimization core

Shallow embedding of the notebook's scoring-and-allocation engine:

* `product_stats` — the pandas `groupby('product_name').agg(mean).reset_index()`
  pipeline plus the derived `resource_cost` column (the Aggregator);
* `compute_product_scores` — min-max normalization of the `profit`, `time`,
  `resource` columns, the weighted score, and the
  `sort_values(by='score', ascending=False)` call (the Scorer);
* `optimize_production` — the `scipy.optimize.linprog` wrapper (the Allocator);
  the solver itself is third-party code and is modelled as a function
  parameter producing a `LinprogResult`.

Numeric values are embedded as rationals (`ℚ`).  The one place where IEEE
floating point matters to the spec is division by zero: pandas/numpy produce
`NaN` (for `0.0/0.0`) or `±Inf` (for `x/0.0`) and propagate them silently.
We model "non-finite float" as `none : Option ℚ`, with arithmetic on
`Option ℚ` propagating `none` exactly as float arithmetic propagates
`NaN`/`Inf` through the expressions that actually occur here.
-/

/-- Division as performed by pandas on float columns: a zero denominator does
not raise but yields a non-finite value (`NaN` or `±Inf`), modelled `none`. -/
def qdiv? (a b : ℚ) : Option ℚ :=
  if b = 0 then none else some (a / b)

/-- Float addition with non-finite propagation (`x + NaN = NaN`, `x + Inf = Inf`). -/
def oadd : Option ℚ → Option ℚ → Option ℚ
  | some a, some b => some (a + b)
  | _, _ => none

/-- Float subtraction with non-finite propagation. -/
def osub : Option ℚ → Option ℚ → Option ℚ
  | some a, some b => some (a - b)
  | _, _ => none

/-- Scalar × float-column entry: `w * NaN = NaN` (also `0 * NaN = NaN`). -/
def omul (w : ℚ) : Option ℚ → Option ℚ
  | some a => some (w * a)
  | none => none

/-- Column minimum as pandas `Series.min()` on a nonempty column; the empty
case never arises in the claims (pandas would give `NaN` there). -/
def colMin : List ℚ → ℚ
  | [] => 0
  | x :: xs => xs.foldl min x

/-- Column maximum as pandas `Series.max()` on a nonempty column. -/
def colMax : List ℚ → ℚ
  | [] => 0
  | x :: xs => xs.foldl max x

/-- One row of the displayed `product_stats[['product_name','profit','time','resource']]`
table, the Scorer's input (the spec's `ProductSummary`). -/
structure SummaryRow where
  product_name : String
  profit : ℚ
  time : ℚ
  resource : ℚ
deriving Repr, DecidableEq

/-- One row of the frame built inside `compute_product_scores`: the summary
columns plus the three `*_norm` columns and `score`.  Norms and score are
`Option ℚ` because the unguarded `(x - min)/(max - min)` divisions can
produce non-finite floats. -/
structure ScoredRow where
  product_name : String
  profit : ℚ
  time : ℚ
  resource : ℚ
  profit_norm : Option ℚ
  time_norm : Option ℚ
  resource_norm : Option ℚ
  score : Option ℚ
deriving Repr, DecidableEq

/-- The row `compute_product_scores` builds for summary row `s`, with the
column minima/maxima taken over the whole `stats` table:
`profit_norm = (profit - min)/(max - min)` (and likewise for time, resource),
`score = profit_norm - w_t * time_norm - w_r * resource_norm`. -/
def scoredFor (stats : List SummaryRow) (w_t w_r : ℚ) (s : SummaryRow) : ScoredRow :=
  let pn := qdiv? (s.profit - colMin (stats.map SummaryRow.profit))
      (colMax (stats.map SummaryRow.profit) - colMin (stats.map SummaryRow.profit))
  let tn := qdiv? (s.time - colMin (stats.map SummaryRow.time))
      (colMax (stats.map SummaryRow.time) - colMin (stats.map SummaryRow.time))
  let rn := qdiv? (s.resource - colMin (stats.map SummaryRow.resource))
      (colMax (stats.map SummaryRow.resource) - colMin (stats.map SummaryRow.resource))
  { product_name := s.product_name
    profit := s.profit
    time := s.time
    resource := s.resource
    profit_norm := pn
    time_norm := tn
    resource_norm := rn
    score := osub (osub pn (omul w_t tn)) (omul w_r rn) }

/-- Stable insertion (ascending by `key`): `a` is placed before the first
element whose key is strictly larger, i.e. after any equal keys already
present would be wrong for stability, so we keep `a` before elements with
key ≥ its own only when strictly larger — `≤` here puts `a` in front of the
first element it is `≤`-related to, preserving input order among equal keys
when elements are inserted back-to-front. -/
def insertByKey (key : ScoredRow → ℚ) (a : ScoredRow) : List ScoredRow → List ScoredRow
  | [] => [a]
  | b :: bs => if key a ≤ key b then a :: b :: bs else b :: insertByKey key a bs

/-- Stable ascending sort by `key` (insertion sort): the model of numpy's
stable argsort on the non-NaN score values. -/
def sortByKey (key : ScoredRow → ℚ) : List ScoredRow → List ScoredRow
  | [] => []
  | x :: xs => insertByKey key x (sortByKey key xs)

/-- pandas `sort_values(by='score', ascending=False)` via `nargsort`: rows
with non-finite (`NaN`) score are set aside, the remaining rows are stably
argsorted ascending by score, the resulting order is reversed, and the `NaN`
rows are appended at the end in their original order (`na_position='last'`). -/
def sort_values_score_desc (rows : List ScoredRow) : List ScoredRow :=
  (sortByKey (fun r => r.score.getD 0) (rows.filter (fun r => r.score.isSome))).reverse
    ++ rows.filter (fun r => !r.score.isSome)

/-- `compute_product_scores(w_t, w_r)`: copy the `product_stats` table, add
the three normalized columns and the score column, and return it sorted by
score descending. -/
def compute_product_scores (w_t w_r : ℚ) (stats : List SummaryRow) : List ScoredRow :=
  sort_values_score_desc (stats.map (scoredFor stats w_t w_r))

-- Basic lemmas about the sort -----------------------------------------------

theorem mem_insertByKey {key : ScoredRow → ℚ} {a r : ScoredRow} {l : List ScoredRow} :
    r ∈ insertByKey key a l ↔ r = a ∨ r ∈ l := by
  induction l with
  | nil => simp [insertByKey]
  | cons b bs ih =>
      by_cases h : key a ≤ key b
      · simp [insertByKey, h]
      · simp [insertByKey, h, ih]
        tauto

theorem mem_sortByKey {key : ScoredRow → ℚ} {r : ScoredRow} {l : List ScoredRow} :
    r ∈ sortByKey key l ↔ r ∈ l := by
  induction l with
  | nil => simp [sortByKey]
  | cons x xs ih => simp [sortByKey, mem_insertByKey, ih]

theorem mem_sort_values_score_desc {r : ScoredRow} {rows : List ScoredRow} :
    r ∈ sort_values_score_desc rows ↔ r ∈ rows := by
  unfold sort_values_score_desc
  simp only [List.mem_append, List.mem_reverse, mem_sortByKey, List.mem_filter]
  constructor
  · rintro (⟨h, _⟩ | ⟨h, _⟩) <;> exact h
  · intro h
    by_cases hs : r.score.isSome
    · exact Or.inl ⟨h, hs⟩
    · exact Or.inr ⟨h, by simpa using hs⟩

theorem mem_compute_product_scores {w_t w_r : ℚ} {stats : List SummaryRow} {r : ScoredRow} :
    r ∈ compute_product_scores w_t w_r stats ↔
      ∃ s ∈ stats, r = scoredFor stats w_t w_r s := by
  unfold compute_product_scores
  rw [mem_sort_values_score_desc, List.mem_map]
  constructor
  · rintro ⟨s, hs, rfl⟩; exact ⟨s, hs, rfl⟩
  · rintro ⟨s, hs, rfl⟩; exact ⟨s, hs, rfl⟩

-- Aggregator ------------------------------------------------------------------

/-- One raw manufacturing-order row (the spec's `ProductionRecord`), restricted
to the columns the aggregation pipeline reads. -/
structure ProductionRecord where
  product_name : String
  profit_per_unit : ℚ
  actual_cycle_time_per_unit_min : ℚ
  material_qty_used : ℚ
  material_cost_per_unit : ℚ
  labor_hours : ℚ
  labor_cost_per_hour : ℚ
  energy_kwh : ℚ
  energy_cost_per_kwh : ℚ
  actual_quantity : ℚ
deriving Repr, DecidableEq

/-- Arithmetic mean of a column (pandas `'mean'` aggregation); groups produced
by `groupby` are always nonempty, so the `0/0` empty case never arises. -/
def listMean (xs : List ℚ) : ℚ := xs.sum / xs.length

/-- Insert a name into a sorted duplicate-free list of names. -/
def insertName (a : String) : List String → List String
  | [] => [a]
  | b :: bs => if a = b then b :: bs else if a < b then a :: b :: bs else b :: insertName a bs

/-- The group keys of `df.groupby('product_name')`: distinct product names in
ascending order. -/
def uniqueNames (records : List ProductionRecord) : List String :=
  records.foldr (fun r acc => insertName r.product_name acc) []

/-- One row of the aggregated `product_stats` frame after the `rename`:
the per-group means, plus the derived `resource` column. -/
structure StatRow where
  product_name : String
  profit : ℚ
  time : ℚ
  material_qty_used : ℚ
  material_cost_per_unit : ℚ
  labor_hours : ℚ
  labor_cost_per_hour : ℚ
  energy_kwh : ℚ
  energy_cost_per_kwh : ℚ
  actual_quantity : ℚ
  resource : Option ℚ
deriving Repr, DecidableEq

/-- The `product_stats` row for one group: columnwise means, and
`resource_cost = material_qty_used * material_cost_per_unit
  + (labor_hours * labor_cost_per_hour) / actual_quantity
  + (energy_kwh * energy_cost_per_kwh) / actual_quantity`
over those means, with the two divisions producing a non-finite float
(`none`) when the mean actual quantity is zero. -/
def mkStatRow (name : String) (grp : List ProductionRecord) : StatRow :=
  let aq := listMean (grp.map ProductionRecord.actual_quantity)
  { product_name := name
    profit := listMean (grp.map ProductionRecord.profit_per_unit)
    time := listMean (grp.map ProductionRecord.actual_cycle_time_per_unit_min)
    material_qty_used := listMean (grp.map ProductionRecord.material_qty_used)
    material_cost_per_unit := listMean (grp.map ProductionRecord.material_cost_per_unit)
    labor_hours := listMean (grp.map ProductionRecord.labor_hours)
    labor_cost_per_hour := listMean (grp.map ProductionRecord.labor_cost_per_hour)
    energy_kwh := listMean (grp.map ProductionRecord.energy_kwh)
    energy_cost_per_kwh := listMean (grp.map ProductionRecord.energy_cost_per_kwh)
    actual_quantity := aq
    resource := oadd (oadd
      (some (listMean (grp.map ProductionRecord.material_qty_used)
        * listMean (grp.map ProductionRecord.material_cost_per_unit)))
      (qdiv? (listMean (grp.map ProductionRecord.labor_hours)
        * listMean (grp.map ProductionRecord.labor_cost_per_hour)) aq))
      (qdiv? (listMean (grp.map ProductionRecord.energy_kwh)
        * listMean (grp.map ProductionRecord.energy_cost_per_kwh)) aq) }

/-- The records of one `groupby` group. -/
def groupRecords (records : List ProductionRecord) (name : String) : List ProductionRecord :=
  records.filter (fun r => r.product_name == name)

/-- The whole aggregation pipeline
`df.groupby('product_name').agg({... 'mean' ...}).reset_index()` followed by
the `resource_cost` column and the renames: one `StatRow` per distinct
product name, in ascending name order. -/
def product_stats (records : List ProductionRecord) : List StatRow :=
  (uniqueNames records).map (fun n => mkStatRow n (groupRecords records n))

-- Allocator -------------------------------------------------------------------

/-- What `scipy.optimize.linprog` returns, restricted to the fields the
notebook reads (`success`, `x`, `message`). -/
structure LinprogResult where
  success : Bool
  x : List ℚ
  message : String

/-- The LP handed to `linprog`: `c = -scores` (entrywise float negation, so a
`NaN` score gives a `NaN` cost entry), `A_ub` the time and resource rows,
`b_ub = [T_max, R_max]`; the bounds `(0, None)` per variable are implicit. -/
structure LPProblem where
  c : List (Option ℚ)
  A : List (List ℚ)
  b : List ℚ

/-- The problem `optimize_production` builds from the scored table. -/
def lpProblemOf (w_t w_r T_max R_max : ℚ) (stats : List SummaryRow) : LPProblem :=
  let data := compute_product_scores w_t w_r stats
  { c := data.map (fun r => omul (-1) r.score)
    A := [data.map ScoredRow.time, data.map ScoredRow.resource]
    b := [T_max, R_max] }

/-- One row of the successful allocator output
`output[['product_name', 'score', 'recommended_qty']]`. -/
structure OutRow where
  product_name : String
  score : Option ℚ
  recommended_qty : ℤ
deriving Repr, DecidableEq

/-- The two shapes `optimize_production` can return: a result table on solver
success, or the bare string `"Optimization failed: " + result.message`. -/
inductive OptimizeOutput where
  | table : List OutRow → OptimizeOutput
  | failureMessage : String → OptimizeOutput
deriving Repr, DecidableEq

/-- `np.round`: round half to even, as applied to the continuous solution
before `astype(int)`. -/
def roundHalfEven (q : ℚ) : ℤ :=
  let f := ⌊q⌋
  let r := q - f
  if r < 1/2 then f
  else if 1/2 < r then f + 1
  else if f % 2 = 0 then f else f + 1

/-- Whether the allocator's return value is the structured table form (as
opposed to the bare failure string). -/
def isStructuredResult : OptimizeOutput → Bool
  | .table _ => true
  | .failureMessage _ => false

/-- `optimize_production(w_t, w_r, T_max, R_max)`: recompute the scored table,
hand the LP to the solver (`scipy.optimize.linprog`, modelled as the `solver`
parameter since it is third-party code), and either return the table with
`recommended_qty = np.round(x).astype(int)` on success, or the plain string
`"Optimization failed: " + result.message` otherwise. -/
def optimize_production (solver : LPProblem → LinprogResult)
    (w_t w_r T_max R_max : ℚ) (stats : List SummaryRow) : OptimizeOutput :=
  let data := compute_product_scores w_t w_r stats
  let result := solver (lpProblemOf w_t w_r T_max R_max stats)
  if result.success then
    .table ((data.zip result.x).map (fun p =>
      { product_name := p.1.product_name
        score := p.1.score
        recommended_qty := roundHalfEven p.2 }))
  else
    .failureMessage ("Optimization failed: " ++ result.message)

-- Stateful view of the scorer (for the frame/no-mutation claim) ---------------

/-- A `ScoredRow` before any of the derived columns exist: the state of the
local frame right after `df = product_stats.copy()`. -/
def blankScored (s : SummaryRow) : ScoredRow :=
  { product_name := s.product_name
    profit := s.profit
    time := s.time
    resource := s.resource
    profit_norm := none
    time_norm := none
    resource_norm := none
    score := none }

/-- The notebook state visible to `compute_product_scores`: the global
`product_stats` table and the local working copy `df`. -/
structure ScorerFrame where
  product_stats : List SummaryRow
  df : List ScoredRow

/-- `df['profit_norm'] = (df['profit'] - df['profit'].min()) / (df['profit'].max() - df['profit'].min())` —
a column assignment on the local copy only. -/
def setProfitNorm (fr : ScorerFrame) : ScorerFrame :=
  let lo := colMin (fr.df.map ScoredRow.profit)
  let hi := colMax (fr.df.map ScoredRow.profit)
  { fr with df := fr.df.map (fun r => { r with profit_norm := qdiv? (r.profit - lo) (hi - lo) }) }

/-- `df['time_norm'] = ...` — a column assignment on the local copy only. -/
def setTimeNorm (fr : ScorerFrame) : ScorerFrame :=
  let lo := colMin (fr.df.map ScoredRow.time)
  let hi := colMax (fr.df.map ScoredRow.time)
  { fr with df := fr.df.map (fun r => { r with time_norm := qdiv? (r.time - lo) (hi - lo) }) }

/-- `df['resource_norm'] = ...` — a column assignment on the local copy only. -/
def setResourceNorm (fr : ScorerFrame) : ScorerFrame :=
  let lo := colMin (fr.df.map ScoredRow.resource)
  let hi := colMax (fr.df.map ScoredRow.resource)
  { fr with df := fr.df.map (fun r => { r with resource_norm := qdiv? (r.resource - lo) (hi - lo) }) }

/-- `df['score'] = df['profit_norm'] - w_t * df['time_norm'] - w_r * df['resource_norm']`. -/
def setScore (w_t w_r : ℚ) (fr : ScorerFrame) : ScorerFrame :=
  { fr with df := fr.df.map (fun r =>
      { r with score := osub (osub r.profit_norm (omul w_t r.time_norm)) (omul w_r r.resource_norm) }) }

/-- A full call of `compute_product_scores` seen as a state transformer: the
first component is the global `product_stats` table after the call, the
second the returned frame. -/
def runScorer (stats : List SummaryRow) (w_t w_r : ℚ) : List SummaryRow × List ScoredRow :=
  let fr0 : ScorerFrame := { product_stats := stats, df := stats.map blankScored }
  let fr4 := setScore w_t w_r (setResourceNorm (setTimeNorm (setProfitNorm fr0)))
  (fr4.product_stats, sort_values_score_desc fr4.df)

-- Sortedness of the scorer output ---------------------------------------------

/-- "Score at least as large", float-style: two finite scores compare
numerically, a `NaN` score sorts after anything (pandas `na_position='last'`). -/
def scoreGe : Option ℚ → Option ℚ → Prop
  | some a, some b => b ≤ a
  | _, none => True
  | none, some _ => False

theorem sorted_insertByKey {key : ScoredRow → ℚ} {a : ScoredRow} {l : List ScoredRow}
    (h : l.Pairwise (fun x y => key x ≤ key y)) :
    (insertByKey key a l).Pairwise (fun x y => key x ≤ key y) := by
  induction l with
  | nil => simp [insertByKey]
  | cons b bs ih =>
      rw [List.pairwise_cons] at h
      obtain ⟨hb, hbs⟩ := h
      by_cases hab : key a ≤ key b
      · rw [insertByKey, if_pos hab, List.pairwise_cons]
        refine ⟨?_, List.pairwise_cons.mpr ⟨hb, hbs⟩⟩
        intro c hc
        rcases List.mem_cons.mp hc with rfl | hc
        · exact hab
        · exact le_trans hab (hb c hc)
      · rw [insertByKey, if_neg hab, List.pairwise_cons]
        refine ⟨?_, ih hbs⟩
        intro c hc
        rcases mem_insertByKey.mp hc with rfl | hc
        · exact le_of_lt (lt_of_not_le hab)
        · exact hb c hc

theorem sorted_sortByKey {key : ScoredRow → ℚ} {l : List ScoredRow} :
    (sortByKey key l).Pairwise (fun x y => key x ≤ key y) := by
  induction l with
  | nil => simp [sortByKey]
  | cons x xs ih => exact sorted_insertByKey ih

theorem pairwise_scoreGe_sort_values (rows : List ScoredRow) :
    ((sort_values_score_desc rows).map ScoredRow.score).Pairwise scoreGe := by
  unfold sort_values_score_desc
  rw [List.map_append, List.pairwise_append]
  refine ⟨?_, ?_, ?_⟩
  · rw [List.map_reverse, List.pairwise_reverse]
    have hsome : ∀ r ∈ sortByKey (fun r => r.score.getD 0)
        (rows.filter (fun r => r.score.isSome)), r.score.isSome := by
      intro r hr
      exact (List.mem_filter.mp (mem_sortByKey.mp hr)).2
    rw [List.pairwise_map]
    refine List.Pairwise.imp_of_mem ?_ sorted_sortByKey
    intro a b ha hb hle
    have hsa := hsome a ha
    have hsb := hsome b hb
    obtain ⟨x, hx⟩ := Option.isSome_iff_exists.mp hsa
    obtain ⟨y, hy⟩ := Option.isSome_iff_exists.mp hsb
    simp only [hx, hy, Option.getD_some] at hle ⊢
    exact hle
  · rw [List.pairwise_map]
    refine List.Pairwise.imp_of_mem ?_ (List.Pairwise.filter _ (List.pairwise_of_forall (fun _ _ => trivial)))
    intro a b _ hb _
    have : ¬ b.score.isSome := by
      have := (List.mem_filter.mp hb).2
      simpa using this
    have hbnone : b.score = none := Option.not_isSome_iff_eq_none.mp this
    rw [hbnone]
    cases a.score <;> trivial
  · intro x hx y hy
    rcases List.mem_map.mp hy with ⟨b, hb, rfl⟩
    have : ¬ b.score.isSome := by
      have := (List.mem_filter.mp hb).2
      simpa using this
    have hbnone : b.score = none := Option.not_isSome_iff_eq_none.mp this
    rw [hbnone]
    cases x <;> trivial

-- Column bounds ---------------------------------------------------------------

theorem foldl_min_le_init (l : List ℚ) (a : ℚ) : l.foldl min a ≤ a := by
  induction l generalizing a with
  | nil => simp
  | cons b bs ih => exact le_trans (ih (min a b)) (min_le_left a b)

theorem foldl_min_le_mem (l : List ℚ) (a v : ℚ) (hv : v ∈ l) : l.foldl min a ≤ v := by
  induction l generalizing a with
  | nil => cases hv
  | cons b bs ih =>
      rcases List.mem_cons.mp hv with rfl | hv
      · exact le_trans (foldl_min_le_init bs (min a v)) (min_le_right a v)
      · exact ih (min a b) hv

theorem init_le_foldl_max (l : List ℚ) (a : ℚ) : a ≤ l.foldl max a := by
  induction l generalizing a with
  | nil => simp
  | cons b bs ih => exact le_trans (le_max_left a b) (ih (max a b))

theorem mem_le_foldl_max (l : List ℚ) (a v : ℚ) (hv : v ∈ l) : v ≤ l.foldl max a := by
  induction l generalizing a with
  | nil => cases hv
  | cons b bs ih =>
      rcases List.mem_cons.mp hv with rfl | hv
      · exact le_trans (le_max_right a v) (init_le_foldl_max bs (max a v))
      · exact ih (max a b) hv

theorem colMin_le_of_mem {xs : List ℚ} {v : ℚ} (hv : v ∈ xs) : colMin xs ≤ v := by
  cases xs with
  | nil => cases hv
  | cons x l =>
      rcases List.mem_cons.mp hv with rfl | hv
      · exact foldl_min_le_init l v
      · exact foldl_min_le_mem l x v hv

theorem le_colMax_of_mem {xs : List ℚ} {v : ℚ} (hv : v ∈ xs) : v ≤ colMax xs := by
  cases xs with
  | nil => cases hv
  | cons x l =>
      rcases List.mem_cons.mp hv with rfl | hv
      · exact init_le_foldl_max l v
      · exact mem_le_foldl_max l x v hv

/-- What the unguarded normalization `(v - min)/(max - min)` does on a
non-degenerate column: a finite value, within `[0,1]` for column members,
exactly `1` at the maximum and `0` at the minimum. -/
theorem normCol_spec {xs : List ℚ} {v : ℚ} (hv : v ∈ xs)
    (hlt : colMin xs < colMax xs) :
    qdiv? (v - colMin xs) (colMax xs - colMin xs)
        = some ((v - colMin xs) / (colMax xs - colMin xs)) ∧
    0 ≤ (v - colMin xs) / (colMax xs - colMin xs) ∧
    (v - colMin xs) / (colMax xs - colMin xs) ≤ 1 ∧
    (v = colMax xs → (v - colMin xs) / (colMax xs - colMin xs) = 1) ∧
    (v = colMin xs → (v - colMin xs) / (colMax xs - colMin xs) = 0) := by
  have hdpos : 0 < colMax xs - colMin xs := sub_pos.mpr hlt
  have hdne : colMax xs - colMin xs ≠ 0 := ne_of_gt hdpos
  refine ⟨by simp [qdiv?, hdne], ?_, ?_, ?_, ?_⟩
  · exact div_nonneg (sub_nonneg.mpr (colMin_le_of_mem hv)) (le_of_lt hdpos)
  · exact (div_le_one hdpos).mpr (sub_le_sub_right (le_colMax_of_mem hv) _)
  · intro hmax; rw [hmax]; exact div_self hdne
  · intro hmin; rw [hmin]; simp

-- Concrete inputs used by the evaluation theorems ------------------------------

/-- Two products identical on every metric: every metric column is degenerate
(`max == min`). -/
def demoConst : List SummaryRow :=
  [{ product_name := "A", profit := 5, time := 3, resource := 2 },
   { product_name := "B", profit := 5, time := 3, resource := 2 }]

/-- A single-group record list whose mean `actual_quantity` is zero. -/
def demoZeroQty : List ProductionRecord :=
  [{ product_name := "A", profit_per_unit := 10, actual_cycle_time_per_unit_min := 2,
     material_qty_used := 1, material_cost_per_unit := 2, labor_hours := 3,
     labor_cost_per_hour := 4, energy_kwh := 5, energy_cost_per_kwh := 6,
     actual_quantity := 0 }]

/-- C1.  The spec claims that when every product has the identical value for a
metric (`max == min`) the scorer sets that metric's normalized value to
exactly `0` for every product, for all weights.  The code has no such guard:
it evaluates `(value - min)/(max - min) = 0/0`, which in pandas float
arithmetic yields `NaN` (modelled `none`), not `0`, for every row and every
metric — and the score becomes `NaN` as well.  The claim is right about the
intended policy and the code silently divides by zero, so this is a code
bug, witnessed here on `demoConst` (both products identical on all three
metrics) for arbitrary weights. -/
theorem C1_degenerate_metric_is_nan_not_zero (w_t w_r : ℚ) :
    (compute_product_scores w_t w_r demoConst).map ScoredRow.profit_norm = [none, none] ∧
    (compute_product_scores w_t w_r demoConst).map ScoredRow.time_norm = [none, none] ∧
    (compute_product_scores w_t w_r demoConst).map ScoredRow.resource_norm = [none, none] ∧
    (compute_product_scores w_t w_r demoConst).map ScoredRow.score = [none, none] := by
  refine ⟨?_, ?_, ?_, ?_⟩ <;>
    simp [compute_product_scores, sort_values_score_desc, sortByKey, insertByKey, scoredFor,
      colMin, colMax, qdiv?, oadd, osub, omul, demoConst, min_def, max_def]

/-- C4.  The spec claims the aggregator fails with `EmptyInputError` on zero
records and with `DegenerateGroupError` (excluding the group with a warning)
for a group whose mean actual quantity is zero.  The code does neither:
`groupby` on an empty frame silently yields an empty table, and for a
zero-mean-quantity group the `resource_cost` expression silently divides by
zero, producing a non-finite float (`none`); no error is raised and no group
is excluded. -/
theorem C4_aggregator_silently_degenerates :
    product_stats [] = [] ∧
    (product_stats demoZeroQty).map StatRow.resource = [none] ∧
    (product_stats demoZeroQty).map StatRow.product_name = ["A"] := by
  refine ⟨rfl, ?_, ?_⟩ <;>
    simp [product_stats, uniqueNames, insertName, groupRecords, mkStatRow, listMean,
      qdiv?, oadd, demoZeroQty]

-- A small non-degenerate table reused by witnesses -----------------------------

/-- A product at the column minimum of every metric. -/
def ndA : SummaryRow := { product_name := "A", profit := 0, time := 0, resource := 0 }

/-- A product at the column maximum of every metric. -/
def ndB : SummaryRow := { product_name := "B", profit := 1, time := 1, resource := 1 }

/-- A two-product table on which every metric column is non-degenerate. -/
def ndStats : List SummaryRow := [ndA, ndB]

/-- C5.  Every row of the scorer's output satisfies
`score = profit_norm - w_t * time_norm - w_r * resource_norm` — stated on the
finite values, which is the only case in which the spec's real-number
formula is meaningful (a non-finite norm makes the score the same non-finite
value by the same expression). -/
theorem C5_score_formula (w_t w_r : ℚ) (stats : List SummaryRow) (r : ScoredRow)
    (hr : r ∈ compute_product_scores w_t w_r stats) (p t rs : ℚ)
    (hp : r.profit_norm = some p) (ht : r.time_norm = some t)
    (hrs : r.resource_norm = some rs) :
    r.score = some (p - w_t * t - w_r * rs) := by
  obtain ⟨s, hs, rfl⟩ := mem_compute_product_scores.mp hr
  simp only [scoredFor] at hp ht hrs ⊢
  rw [hp, ht, hrs]
  simp [osub, omul]

theorem C5_witness : (scoredFor ndStats 1 1 ndB).score = some (1 - 1 * 1 - 1 * 1) :=
  C5_score_formula 1 1 ndStats (scoredFor ndStats 1 1 ndB)
    (mem_compute_product_scores.mpr ⟨ndB, by simp [ndStats], rfl⟩) 1 1 1
    (by norm_num [scoredFor, colMin, colMax, qdiv?, ndStats, ndA, ndB, min_def, max_def])
    (by norm_num [scoredFor, colMin, colMax, qdiv?, ndStats, ndA, ndB, min_def, max_def])
    (by norm_num [scoredFor, colMin, colMax, qdiv?, ndStats, ndA, ndB, min_def, max_def])

/-- C6.  On every metric column with `max > min`, each output row's normalized
value is `(value - min)/(max - min)`, lies in `[0,1]`, is exactly `1` for a
row attaining the column maximum and exactly `0` for a row attaining the
column minimum. -/
theorem C6_normalization_range (w_t w_r : ℚ) (stats : List SummaryRow) (r : ScoredRow)
    (hr : r ∈ compute_product_scores w_t w_r stats) :
    (colMin (stats.map SummaryRow.profit) < colMax (stats.map SummaryRow.profit) →
      r.profit_norm = some ((r.profit - colMin (stats.map SummaryRow.profit)) /
        (colMax (stats.map SummaryRow.profit) - colMin (stats.map SummaryRow.profit))) ∧
      (∀ x : ℚ, r.profit_norm = some x → 0 ≤ x ∧ x ≤ 1) ∧
      (r.profit = colMax (stats.map SummaryRow.profit) → r.profit_norm = some 1) ∧
      (r.profit = colMin (stats.map SummaryRow.profit) → r.profit_norm = some 0)) ∧
    (colMin (stats.map SummaryRow.time) < colMax (stats.map SummaryRow.time) →
      r.time_norm = some ((r.time - colMin (stats.map SummaryRow.time)) /
        (colMax (stats.map SummaryRow.time) - colMin (stats.map SummaryRow.time))) ∧
      (∀ x : ℚ, r.time_norm = some x → 0 ≤ x ∧ x ≤ 1) ∧
      (r.time = colMax (stats.map SummaryRow.time) → r.time_norm = some 1) ∧
      (r.time = colMin (stats.map SummaryRow.time) → r.time_norm = some 0)) ∧
    (colMin (stats.map SummaryRow.resource) < colMax (stats.map SummaryRow.resource) →
      r.resource_norm = some ((r.resource - colMin (stats.map SummaryRow.resource)) /
        (colMax (stats.map SummaryRow.resource) - colMin (stats.map SummaryRow.resource))) ∧
      (∀ x : ℚ, r.resource_norm = some x → 0 ≤ x ∧ x ≤ 1) ∧
      (r.resource = colMax (stats.map SummaryRow.resource) → r.resource_norm = some 1) ∧
      (r.resource = colMin (stats.map SummaryRow.resource) → r.resource_norm = some 0)) := by
  obtain ⟨s, hs, rfl⟩ := mem_compute_product_scores.mp hr
  refine ⟨?_, ?_, ?_⟩
  · intro hlt
    obtain ⟨heq, h0, h1, hmax, hmin⟩ := normCol_spec (List.mem_map_of_mem SummaryRow.profit hs) hlt
    have hfield : (scoredFor stats w_t w_r s).profit_norm =
        qdiv? (s.profit - colMin (stats.map SummaryRow.profit))
          (colMax (stats.map SummaryRow.profit) - colMin (stats.map SummaryRow.profit)) := by
      simp [scoredFor]
    have hfp : (scoredFor stats w_t w_r s).profit = s.profit := by simp [scoredFor]
    refine ⟨by rw [hfp, hfield, heq], ?_, ?_, ?_⟩
    · intro x hx
      rw [hfield, heq, Option.some.injEq] at hx
      rw [← hx]; exact ⟨h0, h1⟩
    · intro hm; rw [hfp] at hm; rw [hfield, heq, hmax hm]
    · intro hm; rw [hfp] at hm; rw [hfield, heq, hmin hm]
  · intro hlt
    obtain ⟨heq, h0, h1, hmax, hmin⟩ := normCol_spec (List.mem_map_of_mem SummaryRow.time hs) hlt
    have hfield : (scoredFor stats w_t w_r s).time_norm =
        qdiv? (s.time - colMin (stats.map SummaryRow.time))
          (colMax (stats.map SummaryRow.time) - colMin (stats.map SummaryRow.time)) := by
      simp [scoredFor]
    have hfp : (scoredFor stats w_t w_r s).time = s.time := by simp [scoredFor]
    refine ⟨by rw [hfp, hfield, heq], ?_, ?_, ?_⟩
    · intro x hx
      rw [hfield, heq, Option.some.injEq] at hx
      rw [← hx]; exact ⟨h0, h1⟩
    · intro hm; rw [hfp] at hm; rw [hfield, heq, hmax hm]
    · intro hm; rw [hfp] at hm; rw [hfield, heq, hmin hm]
  · intro hlt
    obtain ⟨heq, h0, h1, hmax, hmin⟩ := normCol_spec (List.mem_map_of_mem SummaryRow.resource hs) hlt
    have hfield : (scoredFor stats w_t w_r s).resource_norm =
        qdiv? (s.resource - colMin (stats.map SummaryRow.resource))
          (colMax (stats.map SummaryRow.resource) - colMin (stats.map SummaryRow.resource)) := by
      simp [scoredFor]
    have hfp : (scoredFor stats w_t w_r s).resource = s.resource := by simp [scoredFor]
    refine ⟨by rw [hfp, hfield, heq], ?_, ?_, ?_⟩
    · intro x hx
      rw [hfield, heq, Option.some.injEq] at hx
      rw [← hx]; exact ⟨h0, h1⟩
    · intro hm; rw [hfp] at hm; rw [hfield, heq, hmax hm]
    · intro hm; rw [hfp] at hm; rw [hfield, heq, hmin hm]

theorem C6_witness : (scoredFor ndStats 1 1 ndB).profit_norm = some 1 := by
  have h := C6_normalization_range 1 1 ndStats (scoredFor ndStats 1 1 ndB)
    (mem_compute_product_scores.mpr ⟨ndB, by simp [ndStats], rfl⟩)
  exact (h.1 (by norm_num [colMin, colMax, ndStats, ndA, ndB, min_def, max_def])).2.2.1
    (by norm_num [scoredFor, colMin, colMax, ndStats, ndA, ndB, min_def, max_def])

-- C7: ordering of the scorer output -------------------------------------------

/-- Two products whose scores coincide under `w_t = 1, w_r = 0`: the row of
`"A"` evaluates to `1 - 1·1 - 0·1 = 0` and the row of `"B"` to `0 - 0 - 0 = 0`. -/
def demoTie : List SummaryRow :=
  [{ product_name := "A", profit := 1, time := 1, resource := 1 },
   { product_name := "B", profit := 0, time := 0, resource := 0 }]

/-- C7, counterexample.  The claim says products with equal scores appear in
ascending product-name order.  The code applies no name tie-break at all:
`sort_values(by='score', ascending=False)` stably argsorts ascending and then
reverses the order, so equal-score rows come out in *reversed* input order.
On `demoTie` (input in ascending name order `A, B`, both scores `0`) the
output order is `B, A` — descending names. -/
theorem C7_counterexample :
    (compute_product_scores 1 0 demoTie).map ScoredRow.score = [some 0, some 0] ∧
    (compute_product_scores 1 0 demoTie).map ScoredRow.product_name = ["B", "A"] := by
  constructor <;>
    simp [compute_product_scores, sort_values_score_desc, sortByKey, insertByKey, scoredFor,
      colMin, colMax, qdiv?, oadd, osub, omul, demoTie, min_def, max_def]

/-- C7, amended.  The scorer's output is always sorted by score descending
(rows with a non-finite score last); no product-name tie-break is applied —
equal-score rows appear in reversed input order, as the counterexample shows. -/
theorem C7_sorted_by_score_descending (w_t w_r : ℚ) (stats : List SummaryRow) :
    ((compute_product_scores w_t w_r stats).map ScoredRow.score).Pairwise scoreGe :=
  pairwise_scoreGe_sort_values (stats.map (scoredFor stats w_t w_r))

-- C8: weight monotonicity ------------------------------------------------------

/-- C8.  Fix the summaries and `w_r`, and raise the time weight from `w_t` to
`w_t' > w_t`.  Matching output rows by product name (the aggregated table has
one row per distinct name, hence the `Nodup` hypothesis): a product with
`time_norm > 0` never gains score, and a product with `time_norm = 0` keeps
exactly the same score — including the case where another metric's norm is
non-finite, in which case both calls give the identical non-finite score. -/
theorem C8_time_weight_monotone (stats : List SummaryRow) (w_r w_t w_t' : ℚ)
    (hw : w_t < w_t') (hnodup : (stats.map SummaryRow.product_name).Nodup)
    (r r' : ScoredRow)
    (hr : r ∈ compute_product_scores w_t w_r stats)
    (hr' : r' ∈ compute_product_scores w_t' w_r stats)
    (hname : r.product_name = r'.product_name) :
    (∀ t a b : ℚ, r.time_norm = some t → 0 < t →
      r'.score = some a → r.score = some b → a ≤ b) ∧
    (r.time_norm = some 0 → r'.score = r.score) := by
  obtain ⟨s, hs, rfl⟩ := mem_compute_product_scores.mp hr
  obtain ⟨s', hs', rfl⟩ := mem_compute_product_scores.mp hr'
  have hn : s.product_name = s'.product_name := by
    simpa [scoredFor] using hname
  have hss : s = s' := List.inj_on_of_nodup_map hnodup hs hs' hn
  subst hss
  constructor
  · intro t a b htn ht ha hb
    simp only [scoredFor] at htn ha hb
    rw [htn] at ha hb
    rcases hpn : qdiv? (s.profit - colMin (stats.map SummaryRow.profit))
        (colMax (stats.map SummaryRow.profit) - colMin (stats.map SummaryRow.profit)) with _ | p <;>
      rw [hpn] at ha hb <;>
      rcases hrn : qdiv? (s.resource - colMin (stats.map SummaryRow.resource))
          (colMax (stats.map SummaryRow.resource) - colMin (stats.map SummaryRow.resource)) with _ | rs <;>
        rw [hrn] at ha hb <;>
        simp [osub, omul] at ha hb
    rw [← ha, ← hb]
    have : w_t * t ≤ w_t' * t := mul_le_mul_of_nonneg_right (le_of_lt hw) (le_of_lt ht)
    linarith
  · intro htn
    simp only [scoredFor] at htn ⊢
    rw [htn]
    simp [omul, mul_zero]

theorem C8_witness :
    (scoredFor ndStats 0 0 ndB).time_norm = some 1 ∧ (0 : ℚ) ≤ 1 :=
  ⟨by norm_num [scoredFor, colMin, colMax, qdiv?, ndStats, ndA, ndB, min_def, max_def],
   (C8_time_weight_monotone ndStats 0 0 1 (by norm_num)
      (by simp [ndStats, ndA, ndB])
      (scoredFor ndStats 0 0 ndB) (scoredFor ndStats 1 0 ndB)
      (mem_compute_product_scores.mpr ⟨ndB, by simp [ndStats], rfl⟩)
      (mem_compute_product_scores.mpr ⟨ndB, by simp [ndStats], rfl⟩)
      (by simp [scoredFor])).1 1 0 1
      (by norm_num [scoredFor, colMin, colMax, qdiv?, ndStats, ndA, ndB, min_def, max_def])
      (by norm_num)
      (by norm_num [scoredFor, colMin, colMax, qdiv?, osub, omul, ndStats, ndA, ndB, min_def, max_def])
      (by norm_num [scoredFor, colMin, colMax, qdiv?, osub, omul, ndStats, ndA, ndB, min_def, max_def])⟩

-- C9: the derived resource figure ---------------------------------------------

/-- C9.  Every aggregated row's `resource` equals
`mean(material_qty_used) * mean(material_cost_per_unit)
 + mean(labor_hours) * mean(labor_cost_per_hour) / mean(actual_quantity)
 + mean(energy_kwh) * mean(energy_cost_per_kwh) / mean(actual_quantity)`,
all means being arithmetic means over that product's records — finite exactly
when the mean actual quantity is nonzero (the hypothesis; the zero case is
the C4 degeneracy). -/
theorem C9_resource_formula (records : List ProductionRecord) (g : StatRow)
    (hg : g ∈ product_stats records)
    (haq : listMean ((groupRecords records g.product_name).map ProductionRecord.actual_quantity) ≠ 0) :
    g.resource = some (
      listMean ((groupRecords records g.product_name).map ProductionRecord.material_qty_used) *
        listMean ((groupRecords records g.product_name).map ProductionRecord.material_cost_per_unit) +
      listMean ((groupRecords records g.product_name).map ProductionRecord.labor_hours) *
        listMean ((groupRecords records g.product_name).map ProductionRecord.labor_cost_per_hour) /
        listMean ((groupRecords records g.product_name).map ProductionRecord.actual_quantity) +
      listMean ((groupRecords records g.product_name).map ProductionRecord.energy_kwh) *
        listMean ((groupRecords records g.product_name).map ProductionRecord.energy_cost_per_kwh) /
        listMean ((groupRecords records g.product_name).map ProductionRecord.actual_quantity)) := by
  obtain ⟨n, hn, rfl⟩ := List.mem_map.mp hg
  have hname : (mkStatRow n (groupRecords records n)).product_name = n := by
    simp [mkStatRow]
  rw [hname] at haq ⊢
  simp only [mkStatRow]
  rw [qdiv?, if_neg haq, qdiv?, if_neg haq]
  simp [oadd, add_assoc]

/-- One two-record group with mean actual quantity `2`. -/
def demoAgg : List ProductionRecord :=
  [{ product_name := "A", profit_per_unit := 10, actual_cycle_time_per_unit_min := 2,
     material_qty_used := 1, material_cost_per_unit := 2, labor_hours := 3,
     labor_cost_per_hour := 4, energy_kwh := 5, energy_cost_per_kwh := 6,
     actual_quantity := 1 },
   { product_name := "A", profit_per_unit := 20, actual_cycle_time_per_unit_min := 4,
     material_qty_used := 3, material_cost_per_unit := 2, labor_hours := 5,
     labor_cost_per_hour := 4, energy_kwh := 7, energy_cost_per_kwh := 6,
     actual_quantity := 3 }]

theorem C9_witness :
    (mkStatRow "A" (groupRecords demoAgg "A")).resource = some (
      listMean ((groupRecords demoAgg (mkStatRow "A" (groupRecords demoAgg "A")).product_name).map ProductionRecord.material_qty_used) *
        listMean ((groupRecords demoAgg (mkStatRow "A" (groupRecords demoAgg "A")).product_name).map ProductionRecord.material_cost_per_unit) +
      listMean ((groupRecords demoAgg (mkStatRow "A" (groupRecords demoAgg "A")).product_name).map ProductionRecord.labor_hours) *
        listMean ((groupRecords demoAgg (mkStatRow "A" (groupRecords demoAgg "A")).product_name).map ProductionRecord.labor_cost_per_hour) /
        listMean ((groupRecords demoAgg (mkStatRow "A" (groupRecords demoAgg "A")).product_name).map ProductionRecord.actual_quantity) +
      listMean ((groupRecords demoAgg (mkStatRow "A" (groupRecords demoAgg "A")).product_name).map ProductionRecord.energy_kwh) *
        listMean ((groupRecords demoAgg (mkStatRow "A" (groupRecords demoAgg "A")).product_name).map ProductionRecord.energy_cost_per_kwh) /
        listMean ((groupRecords demoAgg (mkStatRow "A" (groupRecords demoAgg "A")).product_name).map ProductionRecord.actual_quantity)) :=
  C9_resource_formula demoAgg (mkStatRow "A" (groupRecords demoAgg "A"))
    (by simp [product_stats, uniqueNames, insertName, demoAgg])
    (by norm_num [groupRecords, listMean, mkStatRow, demoAgg])

-- C2 / C3: the allocator's failure behavior ------------------------------------

/-- A solver outcome as scipy reports ordinary infeasibility: `success=False`
with an explanatory message (modelled; `linprog` is third-party code). -/
def infeasibleSolver : LPProblem → LinprogResult :=
  fun _ => { success := false, x := [], message := "The problem is infeasible." }

/-- A solver outcome as scipy reports unboundedness: `success=False` with the
HiGHS unboundedness message (modelled; `linprog` is third-party code). -/
def unboundedSolver : LPProblem → LinprogResult :=
  fun _ => { success := false, x := [], message := "The problem is unbounded." }

/-- C2, counterexample.  The claim says that on solver failure the allocator
returns an `AllocationResult` value with `feasible = false` plus a diagnostic
string.  No such structured value exists anywhere in the code:
`optimize_production` returns the bare string
`"Optimization failed: " + result.message` (a value of a different shape
than its success branch), carrying no `feasible` flag and no quantities. -/
theorem C2_counterexample :
    isStructuredResult (optimize_production infeasibleSolver 1 1 80000 10 ndStats) = false ∧
    optimize_production infeasibleSolver 1 1 80000 10 ndStats
      = .failureMessage "Optimization failed: The problem is infeasible." := by
  constructor <;> simp [optimize_production, infeasibleSolver, isStructuredResult]

/-- C2, amended.  Whenever the solver reports failure (`success = false`),
`optimize_production` returns the bare diagnostic string
`"Optimization failed: " + result.message` — not a structured
`AllocationResult` with a `feasible` flag — and returns no quantities,
raising nothing in that branch. -/
theorem C2_failure_returns_message_string (solver : LPProblem → LinprogResult)
    (w_t w_r T_max R_max : ℚ) (stats : List SummaryRow)
    (hfail : (solver (lpProblemOf w_t w_r T_max R_max stats)).success = false) :
    optimize_production solver w_t w_r T_max R_max stats
      = .failureMessage ("Optimization failed: "
          ++ (solver (lpProblemOf w_t w_r T_max R_max stats)).message) := by
  simp [optimize_production, hfail]

theorem C2_witness :
    (infeasibleSolver (lpProblemOf 1 1 80000 10 ndStats)).success = false ∧
    optimize_production infeasibleSolver 1 1 80000 10 ndStats
      = .failureMessage ("Optimization failed: "
          ++ (infeasibleSolver (lpProblemOf 1 1 80000 10 ndStats)).message) :=
  ⟨rfl, C2_failure_returns_message_string infeasibleSolver 1 1 80000 10 ndStats rfl⟩

/-- A scored input realizing the spec's unboundedness scenario: product `"X"`
consumes nothing (`time = 0`, `resource = 0`) and gets the maximal profit,
hence score `1 - w_t·0 - w_r·0 = 1 > 0`; the LP over it is unbounded. -/
def demoUnbounded : List SummaryRow :=
  [{ product_name := "X", profit := 10, time := 0, resource := 0 },
   { product_name := "Y", profit := 0, time := 5, resource := 2 }]

/-- C3, counterexample.  The claim says the unbounded case is reported as the
distinct failure mode `UnboundedError`, not conflated with infeasibility.
The code has no `UnboundedError` (nor any failure value other than a string):
on the unbounded instance `demoUnbounded` — whose zero-consumption product
`"X"` provably has `time = 0`, `resource = 0`, `score = 1 > 0` — the solver
failure is reported through exactly the same `"Optimization failed: ..."`
string shape as an infeasibility failure, differing only in the
solver-supplied message text. -/
theorem C3_counterexample :
    (scoredFor demoUnbounded 1 1 (SummaryRow.mk "X" 10 0 0)).time = 0 ∧
    (scoredFor demoUnbounded 1 1 (SummaryRow.mk "X" 10 0 0)).resource = 0 ∧
    (scoredFor demoUnbounded 1 1 (SummaryRow.mk "X" 10 0 0)).score = some 1 ∧
    (scoredFor demoUnbounded 1 1 (SummaryRow.mk "X" 10 0 0)) ∈ compute_product_scores 1 1 demoUnbounded ∧
    optimize_production unboundedSolver 1 1 80000 10 demoUnbounded
      = .failureMessage "Optimization failed: The problem is unbounded." ∧
    isStructuredResult (optimize_production unboundedSolver 1 1 80000 10 demoUnbounded) = false ∧
    optimize_production infeasibleSolver 1 1 80000 10 demoUnbounded
      = .failureMessage "Optimization failed: The problem is infeasible." := by
  refine ⟨?_, ?_, ?_, ?_, ?_, ?_, ?_⟩
  · norm_num [scoredFor]
  · norm_num [scoredFor]
  · norm_num [scoredFor, colMin, colMax, qdiv?, osub, omul, demoUnbounded, min_def, max_def]
  · exact mem_compute_product_scores.mpr ⟨SummaryRow.mk "X" 10 0 0, by simp [demoUnbounded], rfl⟩
  · simp [optimize_production, unboundedSolver]
  · simp [optimize_production, unboundedSolver, isStructuredResult]
  · simp [optimize_production, infeasibleSolver]

/-- C3, amended.  On the unbounded scenario input (a product with `time = 0`,
`resource = 0` and positive score, as the conjuncts establish), any solver
failure makes `optimize_production` return the one generic failure shape
`"Optimization failed: " + message`; the code defines no distinct
`UnboundedError` mode, so unboundedness is distinguishable from
infeasibility only by the solver's message text. -/
theorem C3_unbounded_reported_generically (solver : LPProblem → LinprogResult)
    (hfail : (solver (lpProblemOf 1 1 80000 10 demoUnbounded)).success = false) :
    (scoredFor demoUnbounded 1 1 (SummaryRow.mk "X" 10 0 0)).time = 0 ∧
    (scoredFor demoUnbounded 1 1 (SummaryRow.mk "X" 10 0 0)).resource = 0 ∧
    (scoredFor demoUnbounded 1 1 (SummaryRow.mk "X" 10 0 0)).score = some 1 ∧
    optimize_production solver 1 1 80000 10 demoUnbounded
      = .failureMessage ("Optimization failed: "
          ++ (solver (lpProblemOf 1 1 80000 10 demoUnbounded)).message) := by
  refine ⟨by norm_num [scoredFor], by norm_num [scoredFor],
    by norm_num [scoredFor, colMin, colMax, qdiv?, osub, omul, demoUnbounded, min_def, max_def], ?_⟩
  simp [optimize_production, hfail]

theorem C3_witness :
    (unboundedSolver (lpProblemOf 1 1 80000 10 demoUnbounded)).success = false ∧
    optimize_production unboundedSolver 1 1 80000 10 demoUnbounded
      = .failureMessage ("Optimization failed: "
          ++ (unboundedSolver (lpProblemOf 1 1 80000 10 demoUnbounded)).message) :=
  ⟨rfl, (C3_unbounded_reported_generically unboundedSolver rfl).2.2.2⟩

-- C10: the scorer does not mutate its input ------------------------------------

/-- C10.  `compute_product_scores` operates on `df = product_stats.copy()`:
viewed as a state transformer (`runScorer`), a call leaves the global
summary table exactly as it was, its returned frame is precisely the pure
`compute_product_scores` of the input, and a later invocation with any other
weights therefore observes the identical input and yields what it would have
yielded on the original state. -/
theorem C10_scorer_does_not_mutate_input (stats : List SummaryRow) (w_t w_r : ℚ) :
    (runScorer stats w_t w_r).1 = stats ∧
    (runScorer stats w_t w_r).2 = compute_product_scores w_t w_r stats ∧
    ∀ w_t2 w_r2 : ℚ,
      runScorer ((runScorer stats w_t w_r).1) w_t2 w_r2 = runScorer stats w_t2 w_r2 := by
  refine ⟨rfl, ?_, fun _ _ => rfl⟩
  unfold runScorer compute_product_scores
  refine congrArg sort_values_score_desc ?_
  simp only [setScore, setResourceNorm, setTimeNorm, setProfitNorm, List.map_map]
  rfl
